import Mathlib

/-!
Verification of the Mermaid rendering core (`mermaid_renderer.py`).

The module under study is `MermaidRenderer`: a renderer holding a browser
handle (`self.browser`, `None` until `start()` succeeds) and an unbounded
result cache (`self.cache`, a dict from md5 hex digests of the diagram text
to result tuples).  `render_diagram` returns a pair
`(image_bytes, error_message)` of two `Optional`s, caches every produced
result, and closes the per-request page in a `finally` clause.

The embedding below is shallow: every awaited external call (playwright
page operations, PIL image operations) is an oracle recorded in an
environment structure; each such oracle yields `Except String α`, where
`Except.error e` models the call raising a Python exception whose
`str(e)` is `e`.  The md5 digest is an external library call as well and is
passed as an abstract `hash : String → String` argument.  The render
function additionally returns a trace of surface events so that resource
accounting (pages opened / closed) and screenshot clips are observable.
-/

/-- Raw bytes (Python `bytes`), modelled as a list of byte values. -/
abbrev Bytes := List Nat

/-- The value of the result tuple `(image_bytes, error_message)` returned by
`render_diagram` (Python `Tuple[Optional[bytes], Optional[str]]`). -/
structure RenderResult where
  image : Option Bytes
  error : Option String
deriving DecidableEq

/-- A bounding box as returned by `svg_element.bounding_box()`:
keys `x`, `y`, `width`, `height`.  Browser coordinates are CSS pixel
values; they are modelled as integers, on which the padding arithmetic of
the source (`- padding`, `+ 2 * padding`, `max(0, ...)`) is exact, as it
is on the source's floats. -/
structure BBox where
  x : Int
  y : Int
  width : Int
  height : Int
deriving DecidableEq

/-- The clip rectangle passed to `page.screenshot(clip=...)`. -/
structure Clip where
  x : Int
  y : Int
  width : Int
  height : Int
deriving DecidableEq

/-- PIL image modes distinguished by `_optimize_image`
(`image.mode in ('RGBA', 'LA')`). -/
inductive ImgMode where
  | RGBA
  | LA
  | other
deriving DecidableEq

/-- A decoded PIL image: its mode plus an abstract content identifier. -/
structure PILImage where
  mode : ImgMode
  content : Nat
deriving DecidableEq

/-- Oracle for the PIL calls made by `_optimize_image`.  `decode` models
`Image.open(BytesIO(b))`; `composite` models building the white `RGB`
background and `background.paste(image, mask=image.split()[-1])`;
`save` models `image.save(output, format='PNG', optimize=True, quality=85)`
followed by `output.getvalue()`.  An `Except.error` is a raised exception. -/
structure ImgEnv where
  decode : Bytes → Except String PILImage
  composite : PILImage → Except String PILImage
  save : PILImage → Except String Bytes

/-- Oracle for the playwright page calls made by one `render_diagram`
request, in source order: `browser.new_page()`, `page.set_viewport_size`,
`page.set_content`, `page.wait_for_function(..., timeout=10000)`,
`page.evaluate("window.mermaidError")` (`none` models JS `undefined`),
`page.query_selector('#mermaid-container svg')` (`true` iff an element was
found), `svg_element.bounding_box()` (`none` models a missing box),
`page.screenshot(clip=...)`, and `page.close()`.  An `Except.error e`
models the awaited call raising an exception with message `e`. -/
structure PageEnv where
  newPage : Except String Unit
  setViewport : Except String Unit
  setContent : Except String Unit
  waitForSignal : Except String Unit
  evalMermaidError : Except String (Option String)
  querySvg : Except String Bool
  boundingBox : Except String (Option BBox)
  screenshot : Clip → Except String Bytes
  closePage : Except String Unit

/-- Engine state: `started` models `self.browser is not None`, and `cache`
models the dict `self.cache` (latest insertion shadows older ones,
matching dict assignment). -/
structure EngineState where
  started : Bool
  cache : List (String × RenderResult)
deriving DecidableEq

/-- Dict lookup `self.cache[cache_key]` / `cache_key in self.cache`. -/
def cacheLookup (c : List (String × RenderResult)) (k : String) :
    Option RenderResult :=
  match c with
  | [] => none
  | p :: rest => if p.1 = k then some p.2 else cacheLookup rest k

/-- Dict assignment `self.cache[cache_key] = result`. -/
def cacheInsert (c : List (String × RenderResult)) (k : String)
    (r : RenderResult) : List (String × RenderResult) :=
  (k, r) :: c

/-- Surface events emitted by one `render_diagram` call:
`openSurface` when `browser.new_page()` returns a page, `capture c` when
`page.screenshot` is invoked with clip `c`, and `closeSurface` when
`page.close()` is invoked in the `finally` clause. -/
inductive Ev where
  | openSurface
  | capture (c : Clip)
  | closeSurface
deriving DecidableEq

/-- Whether an event is a surface acquisition. -/
def Ev.isOpen : Ev → Bool
  | .openSurface => true
  | _ => false

/-- Whether an event is a surface release. -/
def Ev.isClose : Ev → Bool
  | .closeSurface => true
  | _ => false

/-- Python truthiness of the `Optional[str]` returned by
`page.evaluate("window.mermaidError")`: `None` and `""` are falsy
(`if error_message:`). -/
def pyTruthy : Option String → Bool
  | none => false
  | some m => !(m == "")

/-- The result built by the outer `except` handler:
`(None, f"Rendering error: {str(e)}")`. -/
def renderingErrorResult (e : String) : RenderResult :=
  ⟨none, some ("Rendering error: " ++ e)⟩

/-- The fixed 20-pixel padding (`padding = 20`). -/
def padding : Int := 20

/-- `_optimize_image`: decode the raster; if the mode has an alpha channel
(`RGBA` or `LA`), composite onto an opaque white background; re-encode as
optimized PNG.  Any exception anywhere in the `try` block is swallowed and
the original bytes are returned.  The return type `Bytes` (not `Except`)
records that this function never raises. -/
def optimizeImage (ienv : ImgEnv) (imageBytes : Bytes) : Bytes :=
  match ienv.decode imageBytes with
  | Except.error _ => imageBytes
  | Except.ok img =>
    match (if img.mode = ImgMode.RGBA ∨ img.mode = ImgMode.LA then
            ienv.composite img else Except.ok img) with
    | Except.error _ => imageBytes
    | Except.ok flattened =>
      match ienv.save flattened with
      | Except.error _ => imageBytes
      | Except.ok out => out

/-- Whether the PIL processing pipeline of `_optimize_image` raises
somewhere on this input (decode, alpha compositing, or re-encode). -/
def optimizeFaults (ienv : ImgEnv) (imageBytes : Bytes) : Bool :=
  match ienv.decode imageBytes with
  | Except.error _ => true
  | Except.ok img =>
    match (if img.mode = ImgMode.RGBA ∨ img.mode = ImgMode.LA then
            ienv.composite img else Except.ok img) with
    | Except.error _ => true
    | Except.ok flattened =>
      match ienv.save flattened with
      | Except.error _ => true
      | Except.ok _ => false

/-- The body of the `try` block of `render_diagram` after the page has been
acquired (lines 59-117): set viewport and content, wait for the
ready/error handshake with a 10s timeout (the inner `try` also covers the
`page.evaluate` call, so a fault there is reported as the timeout
failure), check the error signal with Python truthiness, locate the svg,
take its bounding box, screenshot the padded clip, and post-process.
Returns the pending result together with the capture events; any raised
exception is turned into `renderingErrorResult` by the outer `except`.
The cache write and the `finally` clause are applied by `render`. -/
def renderTryBody (penv : PageEnv) (ienv : ImgEnv) :
    RenderResult × List Ev :=
  match penv.setViewport with
  | Except.error e => (renderingErrorResult e, [])
  | Except.ok _ =>
  match penv.setContent with
  | Except.error e => (renderingErrorResult e, [])
  | Except.ok _ =>
  match penv.waitForSignal with
  | Except.error _ => (⟨none, some "Failed to render diagram: timeout"⟩, [])
  | Except.ok _ =>
  match penv.evalMermaidError with
  | Except.error _ => (⟨none, some "Failed to render diagram: timeout"⟩, [])
  | Except.ok msg =>
  if pyTruthy msg then
    (⟨none, some ("Mermaid error: " ++ msg.getD "")⟩, [])
  else
  match penv.querySvg with
  | Except.error e => (renderingErrorResult e, [])
  | Except.ok false => (⟨none, some "Failed to find rendered diagram"⟩, [])
  | Except.ok true =>
  match penv.boundingBox with
  | Except.error e => (renderingErrorResult e, [])
  | Except.ok none => (⟨none, some "Failed to get diagram dimensions"⟩, [])
  | Except.ok (some bbox) =>
  match penv.screenshot ⟨max 0 (bbox.x - padding), max 0 (bbox.y - padding),
      bbox.width + 2 * padding, bbox.height + 2 * padding⟩ with
  | Except.error e =>
      (renderingErrorResult e,
       [Ev.capture ⟨max 0 (bbox.x - padding), max 0 (bbox.y - padding),
          bbox.width + 2 * padding, bbox.height + 2 * padding⟩])
  | Except.ok shot =>
      (⟨some (optimizeImage ienv shot), none⟩,
       [Ev.capture ⟨max 0 (bbox.x - padding), max 0 (bbox.y - padding),
          bbox.width + 2 * padding, bbox.height + 2 * padding⟩])

/-- The `finally` clause for a call that acquired a page: `page.close()` is
invoked on every exit path.  If `close` itself raises, the pending return
value is discarded and the exception propagates to the caller (Python
`try/except/finally` semantics); the close invocation is recorded either
way. -/
def finishWithClose (penv : PageEnv) (r : RenderResult) (s : EngineState)
    (evs : List Ev) : Except String RenderResult × EngineState × List Ev :=
  match penv.closePage with
  | Except.ok _ => (Except.ok r, s, evs ++ [Ev.closeSurface])
  | Except.error e => (Except.error e, s, evs ++ [Ev.closeSurface])

/-- `render_diagram(mermaid_code)`.  `hash` models
`hashlib.md5(code.encode()).hexdigest()`.  The first component is the
outcome visible to the caller (`Except.error` = an exception propagated
out of the call), the second the updated engine state, the third the
surface event trace.  Structure, following the source:
not-initialized guard; cache lookup; `browser.new_page()` (a fault here is
caught by the outer `except` with `page` still `None`, so no close);
otherwise the try body runs, its result is stored in the cache
unconditionally, and the `finally` clause closes the page. -/
def render (hash : String → String) (penv : PageEnv) (ienv : ImgEnv)
    (s : EngineState) (text : String) :
    Except String RenderResult × EngineState × List Ev :=
  if s.started = false then
    (Except.ok ⟨none, some "Renderer not initialized"⟩, s, [])
  else
    match cacheLookup s.cache (hash text) with
    | some cached => (Except.ok cached, s, [])
    | none =>
      match penv.newPage with
      | Except.error e =>
          (Except.ok (renderingErrorResult e),
           ⟨s.started, cacheInsert s.cache (hash text) (renderingErrorResult e)⟩,
           [])
      | Except.ok _ =>
          finishWithClose penv (renderTryBody penv ienv).1
            ⟨s.started,
             cacheInsert s.cache (hash text) (renderTryBody penv ienv).1⟩
            (Ev.openSurface :: (renderTryBody penv ienv).2)

/-- Exactly one component of the result tuple is populated. -/
def wfResult (r : RenderResult) : Bool :=
  (r.image.isSome && r.error.isNone) || (r.image.isNone && r.error.isSome)

/-- A stand-in digest function for concrete test states (the theorems
below hold for every `hash`). -/
def hashId : String → String := fun t => t

/-- A concrete bounding box whose padded clip needs clamping at the origin. -/
def bboxA : BBox := ⟨5, 7, 100, 50⟩

/-- A fully successful page environment. -/
def envAllOk : PageEnv :=
  ⟨Except.ok (), Except.ok (), Except.ok (), Except.ok (),
   Except.ok none, Except.ok true, Except.ok (some bboxA),
   fun _ => Except.ok [1, 2, 3], Except.ok ()⟩

/-- A page environment where the handshake times out and `page.close()`
itself raises in the `finally` clause. -/
def envCloseFault : PageEnv :=
  ⟨Except.ok (), Except.ok (), Except.ok (),
   Except.error "Timeout 10000ms exceeded",
   Except.ok none, Except.ok true, Except.ok none,
   fun _ => Except.error "screenshot failed",
   Except.error "Target page, context or browser has been closed"⟩

/-- A page environment where the in-surface script set
`window.mermaidError = ""` (an empty error message) before the deadline;
no svg was rendered. -/
def envEmptyErrSignal : PageEnv :=
  ⟨Except.ok (), Except.ok (), Except.ok (), Except.ok (),
   Except.ok (some ""), Except.ok false, Except.ok none,
   fun _ => Except.error "screenshot failed", Except.ok ()⟩

/-- A page environment where the in-surface script set the error signal to
a non-empty diagnostic before the deadline. -/
def envErrSignal : PageEnv :=
  ⟨Except.ok (), Except.ok (), Except.ok (), Except.ok (),
   Except.ok (some "Parse error on line 2"), Except.ok false,
   Except.ok none, fun _ => Except.error "screenshot failed", Except.ok ()⟩

/-- An imaging environment whose decoder raises on every input. -/
def ienvFault : ImgEnv :=
  ⟨fun _ => Except.error "cannot identify image file",
   fun _ => Except.error "paste failed", fun _ => Except.error "save failed"⟩

/-- A started engine with an empty cache. -/
def s0 : EngineState := ⟨true, []⟩

/-- An engine that was never started. -/
def sOff : EngineState := ⟨false, []⟩

/-- The successful result produced by `envAllOk` with `ienvFault`. -/
def r0 : RenderResult := ⟨some [1, 2, 3], none⟩

/-- The clip captured for `bboxA`. -/
def clip0 : Clip := ⟨0, 0, 140, 90⟩

/-- The engine state after rendering `"g"` from `s0` under `envAllOk`. -/
def s1 : EngineState := ⟨true, [("g", r0)]⟩

/-- The event trace of that first render. -/
def evs0 : List Ev := [Ev.openSurface, Ev.capture clip0, Ev.closeSurface]


theorem cacheLookup_insert_self (c : List (String × RenderResult)) (k : String)
    (r : RenderResult) : cacheLookup (cacheInsert c k r) k = some r := by
  simp [cacheLookup, cacheInsert]

theorem cacheLookup_wf (c : List (String × RenderResult)) (k : String)
    (r : RenderResult) (hall : ∀ p ∈ c, wfResult p.2 = true)
    (h : cacheLookup c k = some r) : wfResult r = true := by
  induction c with
  | nil => simp [cacheLookup] at h
  | cons p rest ih =>
    rw [cacheLookup] at h
    split at h
    · injection h with h
      subst h
      exact hall p (by simp)
    · exact ih (fun q hq => hall q (List.mem_cons_of_mem _ hq)) h

theorem cacheInsert_wf (c : List (String × RenderResult)) (k : String)
    (r : RenderResult) (hall : ∀ p ∈ c, wfResult p.2 = true)
    (hr : wfResult r = true) :
    ∀ p ∈ cacheInsert c k r, wfResult p.2 = true := by
  intro p hp
  rw [cacheInsert] at hp
  rcases List.mem_cons.1 hp with h | h
  · subst h
    exact hr
  · exact hall p h

theorem renderTryBody_wf (penv : PageEnv) (ienv : ImgEnv) :
    wfResult (renderTryBody penv ienv).1 = true := by
  unfold renderTryBody
  repeat' split
  all_goals simp [wfResult, renderingErrorResult]

theorem renderTryBody_events (penv : PageEnv) (ienv : ImgEnv) :
    (renderTryBody penv ienv).2 = [] ∨
      ∃ c, (renderTryBody penv ienv).2 = [Ev.capture c] := by
  unfold renderTryBody
  repeat' split
  all_goals simp

theorem renderTryBody_capture (penv : PageEnv) (ienv : ImgEnv) (b : BBox)
    (c : Clip) (hbb : penv.boundingBox = Except.ok (some b))
    (hc : Ev.capture c ∈ (renderTryBody penv ienv).2) :
    c = ⟨max 0 (b.x - padding), max 0 (b.y - padding),
         b.width + 2 * padding, b.height + 2 * padding⟩ := by
  unfold renderTryBody at hc
  repeat' split at hc
  all_goals simp_all

/-- C5: for every text, calling render before a successful `start()` returns
the `Failure` with the "not initialized" message immediately — the state is
unchanged and no browser operation is performed (empty event trace). -/
theorem render_before_start (hash : String → String) (penv : PageEnv)
    (ienv : ImgEnv) (s : EngineState) (text : String)
    (hs : s.started = false) :
    render hash penv ienv s text
      = (Except.ok ⟨none, some "Renderer not initialized"⟩, s, []) := by
  unfold render
  rw [hs]
  simp

/-- Witness for `render_before_start` at a concrete never-started engine. -/
theorem render_before_start_witness :
    render hashId envAllOk ienvFault sOff "graph TD"
      = (Except.ok ⟨none, some "Renderer not initialized"⟩, sOff, []) :=
  render_before_start hashId envAllOk ienvFault sOff "graph TD" rfl

/-- C10: the two early-return paths (engine not started, cache hit) leave
the engine state — in particular the result cache — unchanged. -/
theorem render_early_return_frame (hash : String → String) (penv : PageEnv)
    (ienv : ImgEnv) (s : EngineState) (text : String)
    (h : s.started = false ∨ (cacheLookup s.cache (hash text)).isSome = true) :
    (render hash penv ienv s text).2.1 = s := by
  unfold render
  rcases h with h | h
  · rw [h]
    simp
  · rw [Option.isSome_iff_exists] at h
    obtain ⟨r, hr⟩ := h
    split
    · rfl
    · rw [hr]

/-- Witness for `render_early_return_frame` on a concrete cache hit. -/
theorem render_early_return_frame_witness :
    (render hashId envAllOk ienvFault s1 "g").2.1 = s1 :=
  render_early_return_frame hashId envAllOk ienvFault s1 "g" (Or.inr rfl)

/-- C4: in every `render` call the number of surfaces acquired equals the
number of surface-close invocations — the page opened for a request is
closed on every exit path (success, every failure return, and the
propagated close fault itself), so no surface stays open. -/
theorem render_surface_open_close_balanced (hash : String → String)
    (penv : PageEnv) (ienv : ImgEnv) (s : EngineState) (text : String) :
    ((render hash penv ienv s text).2.2.countP Ev.isOpen)
      = ((render hash penv ienv s text).2.2.countP Ev.isClose) := by
  unfold render
  split
  · rfl
  · split
    · rfl
    · split
      · rfl
      · unfold finishWithClose
        rcases renderTryBody_events penv ienv with h | ⟨c, h⟩ <;>
          split <;> simp [h, Ev.isOpen, Ev.isClose]

/-- C1, counterexample: the claim "render never raises to its caller" fails
on the code.  The `finally` clause runs `await page.close()` unguarded; if
the close call itself raises (e.g. the browser connection died), that
exception replaces the pending return value and propagates to the caller.
Concretely: a request that timed out waiting for the handshake and whose
page close then faults makes `render` raise. -/
theorem render_raises_on_close_fault_cex :
    (render hashId envCloseFault ienvFault s0 "graph TD").1
      = Except.error "Target page, context or browser has been closed" := rfl

/-- C1, amended: provided the final `page.close()` does not fault, `render`
never raises: every failure mode (timeout, layout error, missing output,
unexpected fault inside the pipeline) is returned as data. -/
theorem render_never_raises_when_close_ok (hash : String → String)
    (penv : PageEnv) (ienv : ImgEnv) (s : EngineState) (text : String)
    (hcl : penv.closePage = Except.ok ()) :
    ∃ r, (render hash penv ienv s text).1 = Except.ok r := by
  unfold render finishWithClose
  split
  · exact ⟨_, rfl⟩
  · split
    · exact ⟨_, rfl⟩
    · split
      · exact ⟨_, rfl⟩
      · rw [hcl]
        exact ⟨_, rfl⟩

/-- Witness for `render_never_raises_when_close_ok` on a concrete
successful environment. -/
theorem render_never_raises_when_close_ok_witness :
    ∃ r, (render hashId envAllOk ienvFault s0 "graph TD").1 = Except.ok r :=
  render_never_raises_when_close_ok hashId envAllOk ienvFault s0 "graph TD" rfl

theorem render_ok_cases (hash : String → String) (penv : PageEnv)
    (ienv : ImgEnv) (s : EngineState) (text : String) (r : RenderResult)
    (s' : EngineState) (evs : List Ev)
    (h : render hash penv ienv s text = (Except.ok r, s', evs)) :
    (s' = s ∧ r = ⟨none, some "Renderer not initialized"⟩ ∧
      s.started = false) ∨
    (s' = s ∧ cacheLookup s.cache (hash text) = some r) ∨
    (cacheLookup s.cache (hash text) = none ∧ wfResult r = true ∧
      s' = ⟨s.started, cacheInsert s.cache (hash text) r⟩) := by
  unfold render at h
  split at h
  · simp only [Prod.mk.injEq, Except.ok.injEq] at h
    obtain ⟨rfl, rfl, rfl⟩ := h
    exact Or.inl ⟨rfl, rfl, by assumption⟩
  · rename_i hstarted
    split at h
    · rename_i cached heq
      simp only [Prod.mk.injEq, Except.ok.injEq] at h
      obtain ⟨rfl, rfl, rfl⟩ := h
      exact Or.inr (Or.inl ⟨rfl, heq⟩)
    · rename_i heq
      split at h
      · rename_i e henv
        simp only [Prod.mk.injEq, Except.ok.injEq] at h
        obtain ⟨rfl, rfl, rfl⟩ := h
        exact Or.inr (Or.inr ⟨heq, by simp [wfResult, renderingErrorResult], rfl⟩)
      · unfold finishWithClose at h
        split at h
        · simp only [Prod.mk.injEq, Except.ok.injEq] at h
          obtain ⟨rfl, rfl, rfl⟩ := h
          exact Or.inr (Or.inr ⟨heq, renderTryBody_wf penv ienv, rfl⟩)
        · simp at h

/-- C2: on a started engine, if a `render` call on text `x` returned result
`r` normally, then a second `render` call on `x` — under any browser and
imaging environment — returns the bit-identical `r` from the cache, leaves
the state unchanged, and performs no browser operation at all (empty event
trace: no new surface is opened). -/
theorem render_idempotent_cached (hash : String → String)
    (penv penv' : PageEnv) (ienv ienv' : ImgEnv) (s : EngineState)
    (text : String) (r : RenderResult) (s' : EngineState) (evs : List Ev)
    (hs : s.started = true)
    (h1 : render hash penv ienv s text = (Except.ok r, s', evs)) :
    render hash penv' ienv' s' text = (Except.ok r, s', []) := by
  rcases render_ok_cases hash penv ienv s text r s' evs h1 with
    ⟨rfl, hr, hoff⟩ | ⟨rfl, hlk⟩ | ⟨hmiss, hwf, rfl⟩
  · rw [hs] at hoff
    cases hoff
  · unfold render
    rw [hs]
    simp only [Bool.true_eq_false, if_false]
    rw [hlk]
  · unfold render
    simp only [hs, Bool.true_eq_false, if_false]
    rw [cacheLookup_insert_self]

/-- Witness for `render_idempotent_cached`: the second call on `"g"` after
a successful first render replays the cached result with no events. -/
theorem render_idempotent_cached_witness :
    render hashId envAllOk ienvFault s1 "g" = (Except.ok r0, s1, []) :=
  render_idempotent_cached hashId envAllOk envAllOk ienvFault ienvFault
    s0 "g" r0 s1 evs0 rfl rfl

/-- C3: on a started engine, a `render` call whose key is not yet cached
stores the result it returns — success or any failure variant — in the
cache under that key. -/
theorem render_caches_result_on_miss (hash : String → String)
    (penv : PageEnv) (ienv : ImgEnv) (s : EngineState) (text : String)
    (r : RenderResult) (s' : EngineState) (evs : List Ev)
    (hs : s.started = true)
    (hmiss : cacheLookup s.cache (hash text) = none)
    (h : render hash penv ienv s text = (Except.ok r, s', evs)) :
    cacheLookup s'.cache (hash text) = some r := by
  rcases render_ok_cases hash penv ienv s text r s' evs h with
    ⟨rfl, hr, hoff⟩ | ⟨rfl, hlk⟩ | ⟨_, _, rfl⟩
  · rw [hs] at hoff
    cases hoff
  · rw [hmiss] at hlk
    cases hlk
  · exact cacheLookup_insert_self s.cache (hash text) r

/-- Witness for `render_caches_result_on_miss`: after rendering `"g"` from
the empty cache, the cache holds the returned result. -/
theorem render_caches_result_on_miss_witness :
    cacheLookup s1.cache (hashId "g") = some r0 :=
  render_caches_result_on_miss hashId envAllOk ienvFault s0 "g" r0 s1 evs0
    rfl rfl rfl

/-- C9: starting from a state whose cache entries all have exactly one
populated component, every result `render` returns has exactly one
populated component — image bytes with no error, or an error message with
no image — and the resulting state keeps that cache invariant. -/
theorem render_result_exactly_one_variant (hash : String → String)
    (penv : PageEnv) (ienv : ImgEnv) (s : EngineState) (text : String)
    (r : RenderResult) (s' : EngineState) (evs : List Ev)
    (hwf : ∀ p ∈ s.cache, wfResult p.2 = true)
    (h : render hash penv ienv s text = (Except.ok r, s', evs)) :
    wfResult r = true ∧ ∀ p ∈ s'.cache, wfResult p.2 = true := by
  rcases render_ok_cases hash penv ienv s text r s' evs h with
    ⟨rfl, rfl, hoff⟩ | ⟨rfl, hlk⟩ | ⟨hmiss, hwfr, rfl⟩
  · exact ⟨by simp [wfResult], hwf⟩
  · exact ⟨cacheLookup_wf _ (hash text) r hwf hlk, hwf⟩
  · exact ⟨hwfr, cacheInsert_wf _ (hash text) r hwf hwfr⟩

/-- Witness for `render_result_exactly_one_variant` on a concrete
successful render from the empty cache. -/
theorem render_result_exactly_one_variant_witness :
    wfResult r0 = true ∧ ∀ p ∈ s1.cache, wfResult p.2 = true :=
  render_result_exactly_one_variant hashId envAllOk ienvFault s0 "g" r0 s1
    evs0 (by simp [s0]) rfl

/-- C6, counterexample: the claim promises `Failure("Mermaid error: " + m)`
whenever the in-surface script set the error signal with message `m`
before the deadline.  The code tests the evaluated signal with Python
truthiness (`if error_message:`), so the empty message `m = ""` — a set
error signal, since `"" !== undefined` satisfies the wait condition — is
skipped and the pipeline proceeds; with no svg rendered it returns the
"Failed to find rendered diagram" failure instead. -/
theorem render_error_signal_empty_message_cex :
    (render hashId envEmptyErrSignal ienvFault s0 "graph TD").1
      = Except.ok ⟨none, some "Failed to find rendered diagram"⟩ ∧
      ("Failed to find rendered diagram" : String)
        ≠ "Mermaid error: " ++ "" :=
  ⟨rfl, by decide⟩

/-- C6, amended: whenever the in-surface script set the error signal with a
non-empty message `m` before the deadline (and the page was created, the
content loaded, the signal read back without fault, and the final close
does not fault), `render` returns exactly
`Failure("Mermaid error: " ++ m)` — not a timeout message. -/
theorem render_error_signal_nonempty_message (hash : String → String)
    (penv : PageEnv) (ienv : ImgEnv) (s : EngineState) (text : String)
    (m : String)
    (hs : s.started = true)
    (hmiss : cacheLookup s.cache (hash text) = none)
    (hnp : penv.newPage = Except.ok ())
    (hvp : penv.setViewport = Except.ok ())
    (hct : penv.setContent = Except.ok ())
    (hw : penv.waitForSignal = Except.ok ())
    (he : penv.evalMermaidError = Except.ok (some m))
    (hm : m ≠ "")
    (hcl : penv.closePage = Except.ok ()) :
    (render hash penv ienv s text).1
      = Except.ok ⟨none, some ("Mermaid error: " ++ m)⟩ := by
  simp [render, renderTryBody, finishWithClose, hs, hmiss, hnp, hvp, hct,
    hw, he, hcl, pyTruthy, hm]

/-- Witness for `render_error_signal_nonempty_message` with the concrete
diagnostic "Parse error on line 2". -/
theorem render_error_signal_nonempty_message_witness :
    (render hashId envErrSignal ienvFault s0 "bad").1
      = Except.ok ⟨none, some ("Mermaid error: " ++ "Parse error on line 2")⟩ :=
  render_error_signal_nonempty_message hashId envErrSignal ienvFault s0
    "bad" "Parse error on line 2" rfl rfl rfl rfl rfl rfl rfl (by decide) rfl

/-- C7: whenever a `render` call with bounding box `(x, y, w, h)` captures a
raster clip, that clip has origin `(max(0, x - 20), max(0, y - 20))` and
size `(w + 40, h + 40)`: the box expanded by the fixed 20-pixel padding on
every side, with the origin clamped at zero. -/
theorem render_capture_clip_padding (hash : String → String)
    (penv : PageEnv) (ienv : ImgEnv) (s : EngineState) (text : String)
    (b : BBox) (c : Clip)
    (hbb : penv.boundingBox = Except.ok (some b))
    (hc : Ev.capture c ∈ (render hash penv ienv s text).2.2) :
    c = ⟨max 0 (b.x - 20), max 0 (b.y - 20),
         b.width + 40, b.height + 40⟩ := by
  have hbody : Ev.capture c ∈ (renderTryBody penv ienv).2 := by
    unfold render at hc
    split at hc
    · simp at hc
    · split at hc
      · simp at hc
      · split at hc
        · simp at hc
        · unfold finishWithClose at hc
          split at hc <;> simp_all
  rw [renderTryBody_capture penv ienv b c hbb hbody]
  simp only [padding]
  norm_num

/-- Witness for `render_capture_clip_padding` at the concrete box
`bboxA = (5, 7, 100, 50)`, whose clip origin is clamped to `(0, 0)`. -/
theorem render_capture_clip_padding_witness :
    clip0 = ⟨max 0 (bboxA.x - 20), max 0 (bboxA.y - 20),
             bboxA.width + 40, bboxA.height + 40⟩ :=
  render_capture_clip_padding hashId envAllOk ienvFault s0 "g" bboxA clip0
    rfl (by decide)

/-- C8: the image post-processor never raises (it is a total function into
bytes); whenever the PIL pipeline faults — decoding, alpha compositing, or
re-encoding — it returns the original input bytes unchanged. -/
theorem optimize_image_fault_returns_original (ienv : ImgEnv) (b : Bytes)
    (h : optimizeFaults ienv b = true) : optimizeImage ienv b = b := by
  unfold optimizeFaults at h
  unfold optimizeImage
  cases hdec : ienv.decode b with
  | error e => simp
  | ok img =>
    simp only [hdec] at h ⊢
    cases hcomp : (if img.mode = ImgMode.RGBA ∨ img.mode = ImgMode.LA then
        ienv.composite img else Except.ok img) with
    | error e => simp
    | ok flattened =>
      simp only [hcomp] at h ⊢
      cases hsave : ienv.save flattened with
      | error e => simp
      | ok out =>
        simp only [hsave] at h
        cases h

/-- Witness for `optimize_image_fault_returns_original` on a one-byte
input whose decode faults. -/
theorem optimize_image_fault_returns_original_witness :
    optimizeFaults ienvFault [7] = true ∧ optimizeImage ienvFault [7] = [7] :=
  ⟨rfl, optimize_image_fault_returns_original ienvFault [7] rfl⟩
